import Mathlib

/-!
# A shallow embedding of the multi-pool allocator `mm.c`

The allocator keeps thirteen free-list heads (`free_list_table`), carves
4096-byte chunks obtained from `sbrk` into power-of-two blocks and sends
requests above 4088 bytes to the bulk allocator.  Every block carries an
8-byte size header in front of its payload.

The embedding is a state-passing one over a flat byte-addressable memory.
Pointers and `size_t` values are natural numbers below `2 ^ 64`; pointer
arithmetic wraps modulo `2 ^ 64`.  Loads and stores never trap: a store through
the null pointer is recorded at address `0`.
-/

set_option maxRecDepth 1000000

namespace Mm

/-! ## Machine arithmetic and memory -/

/-- `CHUNK_SIZE` is `1 << 12`. -/
def CHUNK_SIZE : Nat := 4096

/-- Pointer (and `size_t`) addition, wrapping at 64 bits. -/
def padd (p n : Nat) : Nat := (p + n) % 2 ^ 64

/-- Pointer (and `size_t`) subtraction, wrapping at 64 bits. -/
def psub (p n : Nat) : Nat := (p + 2 ^ 64 - n % 2 ^ 64) % 2 ^ 64

/-- Byte-addressable memory: the byte stored at each address. -/
abbrev Memory := Nat → Nat

/-- Little-endian read of `n` consecutive bytes starting at `a`. -/
def readBytes (m : Memory) : Nat → Nat → Nat
  | _, 0 => 0
  | a, n + 1 => m a + 256 * readBytes m (padd a 1) n

/-- The load `*(size_t*)a` (also `*(void**)a`): an 8-byte little-endian word. -/
def readWord (m : Memory) (a : Nat) : Nat := readBytes m a 8

/-- The store `*(size_t*)a = v` (also `*(void**)a = v`): the eight bytes at
`a .. a+7` receive the little-endian bytes of `v`. -/
def writeWord (m : Memory) (a v : Nat) : Memory :=
  fun x => if psub x a < 8 then v / 256 ^ psub x a % 256 else m x

/-- The library routine `memcpy(dest, src, n)` (the source is read from the
memory as it is before the copy). -/
def memcpy (m : Memory) (dest src n : Nat) : Memory :=
  fun x => if psub x dest < n then m (padd src (psub x dest)) else m x

/-- The library routine `memset(s, c, n)`. -/
def memset (m : Memory) (s c n : Nat) : Memory :=
  fun x => if psub x s < n then c % 256 else m x

/-- A store of one byte by the client program into memory it owns. -/
def poke (m : Memory) (a v : Nat) : Memory :=
  fun x => if x = a then v % 256 else m x

/-! ## The size-class index function -/

/-- Leading zero bits among the low `k` bits of `x`, scanning from bit `k-1`
downwards. -/
def clzFrom : Nat → Nat → Nat
  | 0, _ => 0
  | k + 1, x => if x / 2 ^ k % 2 = 1 then 0 else clzFrom k x + 1

/-- The gcc builtin `__builtin_clz` on an `unsigned int`: the number of leading
zero bits of a 32-bit value (the builtin is undefined at `0`; the model gives
`32`). -/
def builtin_clz (x : Nat) : Nat := clzFrom 32 (x % 2 ^ 32)

/-- The function `block_index` of `mm.c`. -/
def block_index (x : Nat) : Nat :=
  if x ≤ 8 then 5 else 32 - builtin_clz ((x % 2 ^ 32 + 7) % 2 ^ 32)

/-! ## Allocator state and collaborators -/

/-- One call made to the bulk allocator. -/
inductive BulkCall where
  | alloc (size ret : Nat)
  | release (ptr size : Nat)
  deriving DecidableEq, Repr

/-- The state the allocator runs in: memory, the static `free_list_table`, the
program break moved by `sbrk`, and the bulk allocator (the answers it will
give, and the calls it has received). -/
structure State where
  mem : Memory
  free_list_table : Nat → Nat
  brk : Nat
  brkLimit : Nat
  bulkReplies : List Nat
  bulkCalls : List BulkCall

/-- The assignment `free_list_table[i] = v`. -/
def setEntry (t : Nat → Nat) (i v : Nat) : Nat → Nat :=
  fun j => if j = i then v else t j

/-- Modelled from the spec: `sbrk` (the spec's `extend_heap`) is a system
facility that is not part of the repository.  It returns the previous program
break and moves the break up by `increment`; when the break may not grow it
fails, returns `(void*)-1` and changes nothing. -/
def sbrk (st : State) (increment : Nat) : Nat × State :=
  if st.brk + increment ≤ st.brkLimit then
    (st.brk, { st with brk := st.brk + increment })
  else
    (2 ^ 64 - 1, st)

/-- Modelled from the spec: `bulk_alloc` is defined in `bulk.c`, which is not
part of the sources.  It returns a contiguous region of at least `size` bytes,
or `NULL` on failure.  The addresses it answers with are an input of the model
(`bulkReplies`); when none is left the call fails.  Each call is recorded. -/
def bulk_alloc (st : State) (size : Nat) : Nat × State :=
  match st.bulkReplies with
  | [] => (0, { st with bulkCalls := st.bulkCalls ++ [BulkCall.alloc size 0] })
  | r :: rest =>
    (r, { st with bulkReplies := rest,
                  bulkCalls := st.bulkCalls ++ [BulkCall.alloc size r] })

/-- Modelled from the spec: `bulk_free` is defined in `bulk.c`, which is not
part of the sources.  The model records the pointer and the size it is called
with. -/
def bulk_free (st : State) (ptr size : Nat) : State :=
  { st with bulkCalls := st.bulkCalls ++ [BulkCall.release ptr size] }

/-! ## The allocator -/

/-- The `for` loop of `malloc` (lines 90-108): `fuel` iterations remain, `i` is
the loop counter, `mem` the cursor.  Returns the cursor and the memory after
the loop. -/
def carveLoop (allocationSize partion : Nat) :
    Nat → Nat → Nat → Memory → Nat × Memory
  | 0, _, mem, m => (mem, m)
  | fuel + 1, i, mem, m =>
    if i = partion - 1 then
      let m1 := writeWord m mem allocationSize
      let mem1 := padd mem 8
      let m2 := writeWord m1 mem1 0
      let mem2 := psub mem1 8
      carveLoop allocationSize partion fuel (i + 1) mem2 m2
    else
      let m1 := writeWord m mem allocationSize
      let mem1 := padd mem 8
      let nextBlock := padd mem1 allocationSize
      let m2 := writeWord m1 mem1 nextBlock
      let mem2 := psub mem1 8
      let mem3 := padd mem2 allocationSize
      carveLoop allocationSize partion fuel (i + 1) mem3 m2

/-- The function `malloc` of `mm.c`: the returned pointer and the new state. -/
def malloc (st : State) (size : Nat) : Nat × State :=
  if size = 0 then (0, st)
  else if size > 4088 then
    let r := bulk_alloc st (padd size 8)
    let b := r.1
    let st1 := { r.2 with mem := writeWord r.2.mem b size }
    (padd b 8, st1)
  else
    let index := block_index size
    if st.free_list_table index = 0 then
      let r := sbrk st CHUNK_SIZE
      let allocationSize := 1 <<< index
      let partion := CHUNK_SIZE / allocationSize
      let c := carveLoop allocationSize partion partion 0 r.1 r.2.mem
      let mem := padd c.1 8
      (psub mem allocationSize,
        { r.2 with mem := c.2,
                   free_list_table := setEntry r.2.free_list_table index mem })
    else
      let head := st.free_list_table index
      let current := readWord st.mem head
      (head, { st with free_list_table := setEntry st.free_list_table index current })

/-- The function `free` of `mm.c`.  On the pool branch the header is at most
4096, where `block_index` is at least 5, so `block_index allocationSize - 1`
is the same number in `int` and in `Nat`. -/
def free (st : State) (ptr : Nat) : State :=
  if ptr = 0 then st
  else
    let head0 := psub ptr 8
    let allocationSize := readWord st.mem head0
    let head := padd head0 8
    if allocationSize > CHUNK_SIZE then
      bulk_free st (psub head 8) allocationSize
    else
      let index := block_index allocationSize - 1
      let m :=
        if st.free_list_table index = 0 then writeWord st.mem head 0
        else writeWord st.mem head (st.free_list_table index)
      { st with mem := m, free_list_table := setEntry st.free_list_table index head }

/-- The function `calloc` of `mm.c`; the product `nmemb * size` is computed in
`size_t`. -/
def calloc (st : State) (nmemb size : Nat) : Nat × State :=
  if nmemb * size % 2 ^ 64 = 0 then (0, st)
  else
    let r := malloc st (nmemb * size % 2 ^ 64)
    (r.1, { r.2 with mem := memset r.2.mem r.1 0 (nmemb * size % 2 ^ 64) })

/-- The function `realloc` of `mm.c`. -/
def realloc (st : State) (ptr size : Nat) : Nat × State :=
  if size = 0 then (0, st)
  else
    let allocationSize := readWord st.mem (psub ptr 8)
    if size < psub allocationSize 8 then (ptr, st)
    else if size > 4088 then
      let r := bulk_alloc st (padd size 8)
      let st1 := { r.2 with mem := writeWord r.2.mem r.1 size }
      let newBulkedPtr := padd r.1 8
      let st2 := { st1 with mem := memcpy st1.mem newBulkedPtr ptr (psub allocationSize 8) }
      (newBulkedPtr, free st2 ptr)
    else
      let r := malloc st size
      let st2 := { r.2 with mem := memcpy r.2.mem r.1 ptr (psub allocationSize 8) }
      (r.1, free st2 ptr)

/-- The state at process start: every free list empty, no bulk call made yet.
The memory contents, the program break, its limit and the answers of the bulk
allocator are parameters. -/
def initial (m : Memory) (brk brkLimit : Nat) (replies : List Nat) : State :=
  { mem := m, free_list_table := fun _ => 0, brk := brk, brkLimit := brkLimit,
    bulkReplies := replies, bulkCalls := [] }

/-- A concrete start state: zeroed memory, break at `0x100000`, room for 256
chunks, and a bulk allocator answering with `0x800000`, then `0x900000`. -/
def start : State :=
  initial (fun _ => 0) 1048576 2097152 [8388608, 9437184]

/-- The client program stores the byte `v` at address `a`. -/
def userStore (st : State) (a v : Nat) : State :=
  { st with mem := poke st.mem a v }

/-- A state in which both collaborators fail: the program break is at its
limit and the bulk allocator has no region to give. -/
def exhausted : State :=
  initial (fun _ => 0) 1048576 1048576 []

/-- The byte ranges `[p, p+s)` and `[q, q+t)` share an address. -/
def overlap (p s q t : Nat) : Prop := p < q + t ∧ q < p + s

instance (p s q t : Nat) : Decidable (overlap p s q t) := by
  unfold overlap; infer_instance

/-- The free list that starts at payload pointer `p`: the payload pointers met
by following the successor word stored at the start of each payload (the word
`malloc` loads on a hit), until the null pointer or for at most `fuel`
blocks. -/
def chain (m : Memory) : Nat → Nat → List Nat
  | 0, _ => []
  | fuel + 1, p => if p = 0 then [] else p :: chain m fuel (readWord m p)

/-! ## Pointer arithmetic facts -/

/-- Subtraction does not wrap when the pointer is at least the offset. -/
theorem psub_eq_sub (a n : Nat) (hn : n ≤ a) (ha : a < 2 ^ 64) : psub a n = a - n := by
  unfold psub; omega

/-- Addition does not wrap below `2 ^ 64`. -/
theorem padd_eq_add (a n : Nat) (h : a + n < 2 ^ 64) : padd a n = a + n := by
  unfold padd; omega

/-! ## Pool allocation: overlapping blocks, headers, reuse -/

/-- C1 (fails on the code): from the start state `malloc(8)` carves a chunk of
32-byte blocks at `0x100000` and returns `0x100FC8`; the following
`malloc(4088)` carves the next chunk at `0x101000` and returns `0x100008`,
4096 bytes below that chunk's only block.  Nothing was released, both pointers
are live, and the 8 bytes of the first lie inside the 4088 bytes of the
second. -/
theorem malloc_8_then_4088_overlap :
    (malloc start 8).1 = 1052616 ∧
    (malloc (malloc start 8).2 4088).1 = 1048584 ∧
    (malloc (malloc start 8).2 4088).2.brk = 1048576 + 2 * 4096 ∧
    overlap (malloc start 8).1 8 (malloc (malloc start 8).2 4088).1 4088 := by
  decide

/-- C2 (fails on the code): the `malloc(4088)` that carves a chunk for the
4096-byte class returns a pointer whose header word is not `2 ^ block_index
4088 = 4096`.  After `malloc(8)` the header in front of the returned pointer is
`32`, the header of the first block of the older chunk; the header `4096` was
written 4096 bytes further up, in front of the block left on the free list. -/
theorem malloc_4088_carve_header :
    2 ^ block_index 4088 = 4096 ∧
    (malloc (malloc start 8).2 4088).1 = 1048584 ∧
    readWord (malloc (malloc start 8).2 4088).2.mem
      (psub (malloc (malloc start 8).2 4088).1 8) = 32 ∧
    readWord (malloc (malloc start 8).2 4088).2.mem
      (padd (psub (malloc (malloc start 8).2 4088).1 8) 4096) = 4096 ∧
    (malloc (malloc start 8).2 4088).2.free_list_table 12 = 1048584 + 4096 := by
  decide

/-- C3 (fails on the code): after `malloc(8)`, the call `p = malloc(4088)`
returns `0x100008`; `free(p)` reads the header `32` and pushes `p` onto the
list of class 5; the next `malloc(4088)` pops class 12 and returns `0x101008`,
not `p`. -/
theorem malloc_free_malloc_4088_not_reused :
    block_index 4088 = 12 ∧
    (malloc (malloc start 8).2 4088).1 = 1048584 ∧
    (free (malloc (malloc start 8).2 4088).2 1048584).free_list_table 5 = 1048584 ∧
    (malloc (free (malloc (malloc start 8).2 4088).2 1048584) 4088).1 = 1052680 := by
  decide

/-! ## The bulk path -/

/-- C4 (fails on the code for sizes 4089..4096): `malloc(4090)` takes its
memory from `bulk_alloc(4098)` and stores `4090` in the header, but `free` of
the returned pointer does not call `bulk_free`: the header is not above
`CHUNK_SIZE`, so the block is pushed onto `free_list_table[12]`. -/
theorem malloc_4090_free_goes_to_pool :
    (malloc start 4090).1 = 8388616 ∧
    (malloc start 4090).2.bulkCalls = [BulkCall.alloc 4098 8388608] ∧
    readWord (malloc start 4090).2.mem 8388608 = 4090 ∧
    (malloc start 4090).2.free_list_table 12 = 0 ∧
    (free (malloc start 4090).2 8388616).bulkCalls = [BulkCall.alloc 4098 8388608] ∧
    (free (malloc start 4090).2 8388616).free_list_table 12 = 8388616 := by
  decide

/-- C5 (fails on the code): `malloc(5000)` calls `bulk_alloc(5008)`, and `free`
of the returned pointer `p` calls `bulk_free(p - 8, 5000)`: the length passed
is the header value, not the `5008` the region was allocated with. -/
theorem free_5000_bulk_free_args :
    (malloc start 5000).1 = 8388616 ∧
    (free (malloc start 5000).2 8388616).bulkCalls =
      [BulkCall.alloc 5008 8388608, BulkCall.release 8388608 5000] := by
  decide

/-! ## Overflow and collaborator failure -/

/-- C6 (fails on the code): `calloc(2^63 + 1, 2)` multiplies in `size_t`, gets
`2`, and allocates a 32-byte block: it returns the non-null pointer `0x100FC8`,
moves the program break and installs a free-list head. -/
theorem calloc_overflow_allocates :
    (2 ^ 63 + 1) * 2 ≥ 2 ^ 64 ∧
    (calloc start (2 ^ 63 + 1) 2).1 = 1052616 ∧
    (calloc start (2 ^ 63 + 1) 2).2.brk = start.brk + 4096 ∧
    start.free_list_table 5 = 0 ∧
    (calloc start (2 ^ 63 + 1) 2).2.free_list_table 5 = 1052648 := by
  decide

/-- C7 (fails on the code): when `bulk_alloc` returns `NULL`, `malloc(5000)`
stores `5000` through the null pointer and returns `NULL + 8`; when `sbrk`
returns `(void*)-1`, `malloc(8)` carves from that address (the first header is
stored at `2^64 - 1`), installs `4071` as head of class 5 and returns `4039`. -/
theorem malloc_collaborator_failure :
    (bulk_alloc exhausted (padd 5000 8)).1 = 0 ∧
    (malloc exhausted 5000).1 = 8 ∧
    readWord (malloc exhausted 5000).2.mem 0 = 5000 ∧
    readWord exhausted.mem 0 = 0 ∧
    (sbrk exhausted CHUNK_SIZE).1 = 2 ^ 64 - 1 ∧
    (malloc exhausted 8).1 = 4039 ∧
    exhausted.free_list_table 5 = 0 ∧
    (malloc exhausted 8).2.free_list_table 5 = 4071 ∧
    readWord (malloc exhausted 8).2.mem (2 ^ 64 - 1) = 32 := by
  decide

/-! ## Resizing -/

/-- C8 (fails on the code at the boundary): a 32-byte block obtained by
`malloc(24)` has header `32`, and `realloc(p, 24)` with `24 = 32 - 8` does not
return `p`: the test is `size < allocationSize - 8`, so the call allocates the
next block of the class (`0x100FE8`), copies, and releases `p` onto the free
list.  For a 4096-byte block (`p = 0x100008`, the second `malloc(4088)`, header
`4096`) the call `realloc(p, 4088)` with `4088 = 4096 - 8` does return `p`, but
only after carving a new chunk and releasing `p`: the list head of class 12
goes from null to `p`, and the next `malloc(4088)` returns `p` again. -/
theorem realloc_boundary_moves :
    (malloc start 24).1 = 1052616 ∧
    readWord (malloc start 24).2.mem (psub 1052616 8) = 32 ∧
    ¬ ((realloc (malloc start 24).2 1052616 24).1 = 1052616) ∧
    (realloc (malloc start 24).2 1052616 24).1 = 1052648 ∧
    (malloc start 24).2.free_list_table 5 = 1052648 ∧
    (realloc (malloc start 24).2 1052616 24).2.free_list_table 5 = 1052616 ∧
    (malloc (malloc start 4088).2 4088).1 = 1048584 ∧
    readWord (malloc (malloc start 4088).2 4088).2.mem (psub 1048584 8) = 4096 ∧
    (malloc (malloc start 4088).2 4088).2.free_list_table 12 = 0 ∧
    (realloc (malloc (malloc start 4088).2 4088).2 1048584 4088).1 = 1048584 ∧
    (realloc (malloc (malloc start 4088).2 4088).2 1048584 4088).2.free_list_table 12
      = 1048584 ∧
    (realloc (malloc (malloc start 4088).2 4088).2 1048584 4088).2.brk
      = (malloc (malloc start 4088).2 4088).2.brk + 4096 ∧
    (malloc (realloc (malloc (malloc start 4088).2 4088).2 1048584 4088).2 4088).1
      = 1048584 := by
  decide

/-- Strictly below the usable capacity the fit test of `realloc` succeeds: for
a pointer `p` whose header holds a pool block size `h` (between 32 and 4096)
and a size `s2` with `1 ≤ s2 < h - 8`, `realloc(p, s2)` returns `p` itself and
the state as it was. -/
theorem realloc_fits_strictly (st : State) (p s2 h : Nat)
    (hh : readWord st.mem (psub p 8) = h) (hlo : 32 ≤ h) (hhi : h ≤ 4096)
    (h1 : 1 ≤ s2) (h2 : s2 < h - 8) : realloc st p s2 = (p, st) := by
  have hsub : psub h 8 = h - 8 := psub_eq_sub h 8 (by omega) (by omega)
  have hne : s2 ≠ 0 := by omega
  unfold realloc
  simp only [hh, hsub, hne, h2, if_true, if_false]

/-- The fit test at a concrete input: the 32-byte block of `malloc(24)` resized
to 23 bytes stays where it is. -/
theorem realloc_fits_strictly_witness :
    readWord (malloc start 24).2.mem (psub 1052616 8) = 32 ∧
    realloc (malloc start 24).2 1052616 23 = (1052616, (malloc start 24).2) :=
  ⟨by decide,
   realloc_fits_strictly (malloc start 24).2 1052616 23 32 (by decide) (by decide)
     (by decide) (by decide) (by decide)⟩

/-- C9 (fails on the code): `p = malloc(2040)` is the first block of a chunk of
two 2048-byte blocks (`0x100008`, header `2048`).  `realloc(p, 4088)` calls
`malloc(4088)`, which carves the next chunk and returns `0x101008 - 4096`,
that is `p` again; `free(p)` then pushes `p` onto the list of class 11.  The
call returns `q = p`, whose header is `2048`, not `2 ^ block_index 4088`, and
which is at the same time the head of a free list. -/
theorem realloc_2040_to_4088_returns_same :
    (malloc start 2040).1 = 1048584 ∧
    readWord (malloc start 2040).2.mem (psub 1048584 8) = 2048 ∧
    (realloc (malloc start 2040).2 1048584 4088).1 = 1048584 ∧
    readWord (realloc (malloc start 2040).2 1048584 4088).2.mem (psub 1048584 8) = 2048 ∧
    2 ^ block_index 4088 = 4096 ∧
    (realloc (malloc start 2040).2 1048584 4088).2.free_list_table 11 = 1048584 := by
  decide

/-- C10 (fails on the code): `p = malloc(5000)` is a bulk region with header
`5000`.  The client stores `9` in byte 4991 and `7` in byte 4999 of the
payload.  `realloc(p, 6000)` copies `allocationSize - 8 = 4992` bytes to the
new region `q`: byte 4991 arrives, byte 4999 (among the last 8 of the payload)
does not. -/
theorem realloc_large_drops_last_bytes :
    (malloc start 5000).1 = 8388616 ∧
    readWord (malloc start 5000).2.mem (psub 8388616 8) = 5000 ∧
    (userStore (userStore (malloc start 5000).2 (8388616 + 4991) 9)
      (8388616 + 4999) 7).mem (8388616 + 4999) = 7 ∧
    (realloc (userStore (userStore (malloc start 5000).2 (8388616 + 4991) 9)
      (8388616 + 4999) 7) 8388616 6000).1 = 9437192 ∧
    (realloc (userStore (userStore (malloc start 5000).2 (8388616 + 4991) 9)
      (8388616 + 4999) 7) 8388616 6000).2.mem (9437192 + 4991) = 9 ∧
    (realloc (userStore (userStore (malloc start 5000).2 (8388616 + 4991) 9)
      (8388616 + 4999) 7) 8388616 6000).2.mem (9437192 + 4999) = 0 := by
  decide

/-! ## The size-class index function: closed form -/

/-- A value of bit length `k` (`2^(k-1) ≤ y < 2^k`) has `n - k` leading zeros
among its low `n` bits. -/
theorem clzFrom_of_bitlength (n k y : Nat) (hk0 : 0 < k) (hk : k ≤ n)
    (hlo : 2 ^ k ≤ 2 * y) (hhi : y < 2 ^ k) : clzFrom n y = n - k := by
  induction n with
  | zero => omega
  | succ n ih =>
    unfold clzFrom
    have hpow : 2 ^ (n + 1) = 2 * 2 ^ n := by rw [pow_succ]; ring
    by_cases hkn : k = n + 1
    · subst hkn
      have h1 : y / 2 ^ n = 1 := by
        apply Nat.div_eq_of_lt_le <;> omega
      simp [h1]
    · have hle : k ≤ n := by omega
      have hmono : 2 ^ k ≤ 2 ^ n := Nat.pow_le_pow_right (by decide) hle
      have h0 : y / 2 ^ n = 0 := Nat.div_eq_of_lt (by omega)
      rw [h0, ih hle]
      simp
      omega

/-- For a size above 8 whose sum with 7 has bit length `k`, `block_index` is
`k`. -/
theorem block_index_of_bitlength (x k : Nat) (hx : 8 < x) (hk0 : 0 < k) (hk : k ≤ 32)
    (hlo : 2 ^ k ≤ 2 * (x + 7)) (hhi : x + 7 < 2 ^ k) : block_index x = k := by
  have hmono : 2 ^ k ≤ 2 ^ 32 := Nat.pow_le_pow_right (by decide) hk
  have hx32 : x % 2 ^ 32 = x := Nat.mod_eq_of_lt (by omega)
  have hy32 : (x + 7) % 2 ^ 32 = x + 7 := Nat.mod_eq_of_lt (by omega)
  have hnot : ¬ x ≤ 8 := by omega
  unfold block_index builtin_clz
  rw [if_neg hnot, hx32, hy32, hy32, clzFrom_of_bitlength 32 k (x + 7) hk0 hk hlo hhi]
  omega

/-- Sizes up to 8 are served from the 32-byte class. -/
theorem block_index_small (x : Nat) (hx : x ≤ 8) : block_index x = 5 := by
  unfold block_index
  rw [if_pos hx]

/-- For a pool-sized request the block size `2 ^ block_index x` holds the
payload and the header, and half of it would not (nor would less than 32). -/
theorem block_index_pool (x : Nat) (h1 : 1 ≤ x) (h2 : x ≤ 4088) :
    5 ≤ block_index x ∧ block_index x ≤ 12 ∧
    max 32 (x + 8) ≤ 2 ^ block_index x ∧
    2 ^ block_index x < 2 * max 32 (x + 8) := by
  by_cases hx : x ≤ 8
  · rw [block_index_small x hx]
    refine ⟨by omega, by omega, ?_, ?_⟩ <;> norm_num <;> omega
  · have hx8 : 8 < x := by omega
    have hcases : x + 7 < 32 ∨ (32 ≤ x + 7 ∧ x + 7 < 64) ∨ (64 ≤ x + 7 ∧ x + 7 < 128) ∨
        (128 ≤ x + 7 ∧ x + 7 < 256) ∨ (256 ≤ x + 7 ∧ x + 7 < 512) ∨
        (512 ≤ x + 7 ∧ x + 7 < 1024) ∨ (1024 ≤ x + 7 ∧ x + 7 < 2048) ∨
        (2048 ≤ x + 7 ∧ x + 7 < 4096) := by omega
    rcases hcases with h | h | h | h | h | h | h | h
    · rw [block_index_of_bitlength x 5 hx8 (by omega) (by omega) (by norm_num; omega)
        (by norm_num; omega)]
      refine ⟨by omega, by omega, ?_, ?_⟩ <;> norm_num <;> omega
    · rw [block_index_of_bitlength x 6 hx8 (by omega) (by omega) (by norm_num; omega)
        (by norm_num; omega)]
      refine ⟨by omega, by omega, ?_, ?_⟩ <;> norm_num <;> omega
    · rw [block_index_of_bitlength x 7 hx8 (by omega) (by omega) (by norm_num; omega)
        (by norm_num; omega)]
      refine ⟨by omega, by omega, ?_, ?_⟩ <;> norm_num <;> omega
    · rw [block_index_of_bitlength x 8 hx8 (by omega) (by omega) (by norm_num; omega)
        (by norm_num; omega)]
      refine ⟨by omega, by omega, ?_, ?_⟩ <;> norm_num <;> omega
    · rw [block_index_of_bitlength x 9 hx8 (by omega) (by omega) (by norm_num; omega)
        (by norm_num; omega)]
      refine ⟨by omega, by omega, ?_, ?_⟩ <;> norm_num <;> omega
    · rw [block_index_of_bitlength x 10 hx8 (by omega) (by omega) (by norm_num; omega)
        (by norm_num; omega)]
      refine ⟨by omega, by omega, ?_, ?_⟩ <;> norm_num <;> omega
    · rw [block_index_of_bitlength x 11 hx8 (by omega) (by omega) (by norm_num; omega)
        (by norm_num; omega)]
      refine ⟨by omega, by omega, ?_, ?_⟩ <;> norm_num <;> omega
    · rw [block_index_of_bitlength x 12 hx8 (by omega) (by omega) (by norm_num; omega)
        (by norm_num; omega)]
      refine ⟨by omega, by omega, ?_, ?_⟩ <;> norm_num <;> omega

/-- The index of a pool block size: `block_index (2 ^ k) = k + 1` for the
classes 5..12. -/
theorem block_index_pow (k : Nat) (hk5 : 5 ≤ k) (hk : k ≤ 12) :
    block_index (2 ^ k) = k + 1 := by
  interval_cases k <;> decide

/-- C15: for every size `x` with `1 ≤ x ≤ 4088`, `block_index x` lies in
5..12, the block size `2 ^ block_index x` is at least `max 32 (x + 8)`, no
power of two that is at least `max 32 (x + 8)` is smaller, and sizes 1..8 all
get class 5. -/
theorem block_index_smallest_power (x : Nat) (h1 : 1 ≤ x) (h2 : x ≤ 4088) :
    5 ≤ block_index x ∧ block_index x ≤ 12 ∧
    max 32 (x + 8) ≤ 2 ^ block_index x ∧
    (∀ j, max 32 (x + 8) ≤ 2 ^ j → 2 ^ block_index x ≤ 2 ^ j) ∧
    (x ≤ 8 → block_index x = 5) := by
  obtain ⟨h5, h12, hge, hlt⟩ := block_index_pool x h1 h2
  refine ⟨h5, h12, hge, ?_, block_index_small x⟩
  intro j hj
  by_contra hcon
  have hjk : j + 1 ≤ block_index x := by
    by_contra hle
    exact hcon (Nat.pow_le_pow_right (by decide) (by omega))
  have hmono : 2 ^ (j + 1) ≤ 2 ^ block_index x := Nat.pow_le_pow_right (by decide) hjk
  have hpow : 2 ^ (j + 1) = 2 * 2 ^ j := by rw [pow_succ]; ring
  omega

/-- C15 at concrete inputs: a request of 100 bytes gets class 7 (128-byte
blocks), the smallest power of two holding 108 bytes. -/
theorem block_index_smallest_power_witness :
    (1 ≤ 100 ∧ 100 ≤ 4088) ∧ block_index 100 = 7 ∧
    (5 ≤ block_index 100 ∧ block_index 100 ≤ 12 ∧
      max 32 (100 + 8) ≤ 2 ^ block_index 100 ∧
      (∀ j, max 32 (100 + 8) ≤ 2 ^ j → 2 ^ block_index 100 ≤ 2 ^ j) ∧
      (100 ≤ 8 → block_index 100 = 5)) :=
  ⟨by decide, by decide, block_index_smallest_power 100 (by decide) (by decide)⟩

/-- C17: the class `free` derives from a pool block's header is the class
`malloc` used: `block_index (2 ^ block_index s) - 1 = block_index s` for every
`s` in 1..4088, and `block_index (2 ^ k) - 1 = k` for every `k` in 5..12. -/
theorem block_index_rederived (s k : Nat) (hs1 : 1 ≤ s) (hs : s ≤ 4088)
    (hk5 : 5 ≤ k) (hk : k ≤ 12) :
    block_index (2 ^ block_index s) - 1 = block_index s ∧
    block_index (2 ^ k) - 1 = k := by
  obtain ⟨h5, h12, _, _⟩ := block_index_pool s hs1 hs
  rw [block_index_pow (block_index s) h5 h12, block_index_pow k hk5 hk]
  exact ⟨by omega, by omega⟩

/-- C17 at concrete inputs: size 100 (class 7, header 128) and class 12. -/
theorem block_index_rederived_witness :
    block_index 100 = 7 ∧
    (block_index (2 ^ block_index 100) - 1 = block_index 100 ∧
      block_index (2 ^ 12) - 1 = 12) :=
  ⟨by decide,
   block_index_rederived 100 12 (by decide) (by decide) (by decide) (by decide)⟩

/-- C20: the indices used on the 13-entry `free_list_table` are in bounds.  In
`malloc`, `block_index s < 13` for `1 ≤ s ≤ 4088`; in `free`, for a header
`h ≤ 4096` the value `block_index h` is at least 1 (so the `int` expression
`block_index(h) - 1` is not negative) and `block_index h - 1 < 13`. -/
theorem free_list_table_index_in_bounds (s h : Nat) (hs1 : 1 ≤ s) (hs : s ≤ 4088)
    (hh : h ≤ 4096) :
    block_index s < 13 ∧ 1 ≤ block_index h ∧ block_index h - 1 < 13 := by
  obtain ⟨_, h12, _, _⟩ := block_index_pool s hs1 hs
  refine ⟨by omega, ?_⟩
  by_cases h8 : h ≤ 8
  · rw [block_index_small h h8]
    exact ⟨by omega, by omega⟩
  · by_cases hp : h ≤ 4088
    · obtain ⟨h5, h12, _, _⟩ := block_index_pool h (by omega) hp
      exact ⟨by omega, by omega⟩
    · rw [block_index_of_bitlength h 13 (by omega) (by omega) (by omega)
        (by norm_num; omega) (by norm_num; omega)]
      exact ⟨by omega, by omega⟩

/-- C20 at concrete inputs: the largest pool request and the largest header
that `free` sends to the pool branch both give index 12. -/
theorem free_list_table_index_in_bounds_witness :
    block_index 4088 = 12 ∧ block_index 4096 - 1 = 12 ∧
    (block_index 4088 < 13 ∧ 1 ≤ block_index 4096 ∧ block_index 4096 - 1 < 13) :=
  ⟨by decide, by decide,
   free_list_table_index_in_bounds 4088 4096 (by decide) (by decide) (by decide)⟩

/-! ## Zero sizes -/

/-- C12: `malloc(0)` returns `NULL`, and so do `calloc(0, k)` and
`calloc(k, 0)` for every `k`; in each case the state is returned as it was
(memory, free-list table, program break, and the record of bulk calls). -/
theorem malloc_calloc_zero (st : State) (k : Nat) :
    malloc st 0 = (0, st) ∧ calloc st 0 k = (0, st) ∧ calloc st k 0 = (0, st) := by
  refine ⟨?_, ?_, ?_⟩
  · unfold malloc
    rw [if_pos rfl]
  · unfold calloc
    simp
  · unfold calloc
    simp

/-- C13: `realloc(p, 0)` returns `NULL` for every pointer `p` and returns the
state as it was: `p` is not released, memory, the free-list table and the
program break are unchanged and no bulk call is recorded. -/
theorem realloc_zero (st : State) (p : Nat) : realloc st p 0 = (0, st) := by
  unfold realloc
  rw [if_pos rfl]

/-! ## Zero-allocation, resizing from null, carving and the free lists -/

/-- C11 (fails on the code): `calloc(10, 10)` from the start state does return
100 zero bytes behind a header `128 = 2 ^ block_index 100`.  But after
`malloc(8)`, the call `calloc(1, 4088)` carves a chunk for the 4096-byte class
and returns `0x100008`, whose header is `32`, not `2 ^ block_index 4088 =
4096`; its `memset` also clears the header (`32` before, `0` after) of the live
block that `malloc(8)` returned. -/
theorem calloc_4088_header :
    (calloc start 10 10).1 = 1052424 ∧
    readWord (calloc start 10 10).2.mem (psub 1052424 8) = 2 ^ block_index (10 * 10) ∧
    (∀ i < 100, (calloc start 10 10).2.mem (1052424 + i) = 0) ∧
    (malloc start 8).1 = 1052616 ∧
    (calloc (malloc start 8).2 1 4088).1 = 1048584 ∧
    readWord (calloc (malloc start 8).2 1 4088).2.mem (psub 1048584 8) = 32 ∧
    2 ^ block_index (1 * 4088) = 4096 ∧
    readWord (malloc start 8).2.mem (psub 1052616 8) = 32 ∧
    readWord (calloc (malloc start 8).2 1 4088).2.mem (psub 1052616 8) = 0 := by
  decide

/-- C14 (fails on the code): `realloc(NULL, 16)` first loads the word at
`NULL - 8`.  In the start state that word is `0`, `allocationSize - 8` wraps
to `2^64 - 8`, and the call returns `NULL` without allocating (the program
break and the list head stay put), where `malloc(16)` returns `0x100FC8`.
With `16` stored at `NULL - 8` the same call does allocate: the result depends
on the memory in front of the null pointer. -/
theorem realloc_null_reads_header :
    psub 0 8 = 2 ^ 64 - 8 ∧
    readWord start.mem (psub 0 8) = 0 ∧
    (realloc start 0 16).1 = 0 ∧
    (realloc start 0 16).2.brk = start.brk ∧
    (realloc start 0 16).2.free_list_table 5 = 0 ∧
    (malloc start 16).1 = 1052616 ∧
    (malloc start 16).2.brk = start.brk + 4096 ∧
    (realloc (userStore start (2 ^ 64 - 8) 16) 0 16).1 = 1052616 := by
  decide

/-- C16 (fails on the code): `malloc(8)` on an empty class 5 gets the chunk
at `base = 0x100000` and carves 128 blocks of 32 bytes, but it returns
`base + 126 * 32 + 8`, not `base + 8`, and the free list of class 5 is the
single block `base + 127 * 32 + 8`, not the 127 remaining blocks.  The chain
the loop threaded from the first block (`base + 8`, then `base + 40`,
`base + 72`, ...) starts at no list head. -/
theorem malloc_carve_returns_second_to_last :
    (sbrk start CHUNK_SIZE).1 = 1048576 ∧
    2 ^ block_index 8 = 32 ∧
    (malloc start 8).1 = 1048576 + 126 * 32 + 8 ∧
    chain (malloc start 8).2.mem 200 ((malloc start 8).2.free_list_table 5) =
      [1048576 + 127 * 32 + 8] ∧
    chain (malloc start 8).2.mem 3 (1048576 + 8) =
      [1048576 + 8, 1048576 + 32 + 8, 1048576 + 2 * 32 + 8] := by
  decide

/-- C18 (fails on the code): the first call `malloc(4088)` in the start state
gets the region `[0x100000, 0x101000)` from `sbrk`, the only region handed out
so far, and returns `0x100000 - 4088`: the payload starts below the region and
ends exactly at its base. -/
theorem malloc_4088_outside_chunk :
    start.brk = 1048576 ∧
    (sbrk start CHUNK_SIZE).1 = 1048576 ∧
    (malloc start 4088).2.brk = 1048576 + 4096 ∧
    (malloc start 4088).1 = 1048576 - 4088 ∧
    (malloc start 4088).1 + 4088 = (sbrk start CHUNK_SIZE).1 ∧
    ¬ ((sbrk start CHUNK_SIZE).1 + 8 ≤ (malloc start 4088).1) := by
  decide

/-- C19 (fails on the code): after `p = malloc(4090)` and `free(p)` the free
list of class 12 is `[p]`, a block taken from the bulk allocator whose header
is `4090`, not `2 ^ 12`; the next `malloc(4088)` hands that block out. -/
theorem free_list_holds_bulk_block :
    (malloc start 4090).1 = 8388616 ∧
    chain (free (malloc start 4090).2 8388616).mem 200
      ((free (malloc start 4090).2 8388616).free_list_table 12) = [8388616] ∧
    readWord (free (malloc start 4090).2 8388616).mem (psub 8388616 8) = 4090 ∧
    2 ^ 12 = 4096 ∧
    (malloc (free (malloc start 4090).2 8388616) 4088).1 = 8388616 := by
  decide

end Mm
